import Mathlib

/-!
# Verification of the ayn-platform EC driver translation layer

A shallow embedding of the EC register-access and translation logic of the
ayn-platform driver (src/ayn-sensors.c, with the revision in
src/unnamed/part_003 embedded separately where its behaviour differs).

The EC register file is modelled as a total map from register addresses to
byte values.  The success path of the transaction layer (lock acquired,
every `ec_read`/`ec_write` succeeds) is embedded by pure functions; a second
embedding with explicit lock state and fallible byte reads models the error
paths of `read_from_ec`.
-/

namespace Ayn

/-- Linux errno values used by the driver (negated return convention). -/
def EBUSY : Int := 16

def EINVAL : Int := 22

def EOPNOTSUPP : Int := 95

/-- The EC register file: each byte-addressed register holds a byte value. -/
def EC : Type := Nat → Nat

/-- EC temperature sensor register, Battery. -/
def AYN_SENSOR_BAT_TEMP_REG : Nat := 0x04

/-- EC temperature sensor register, Motherboard. -/
def AYN_SENSOR_MB_TEMP_REG : Nat := 0x05

/-- EC temperature sensor register, Charger IC. -/
def AYN_SENSOR_CHARGE_TEMP_REG : Nat := 0x07

/-- EC temperature sensor register, vCore. -/
def AYN_SENSOR_VCORE_TEMP_REG : Nat := 0x08

/-- EC temperature sensor register, CPU Core. -/
def AYN_SENSOR_PROC_TEMP_REG : Nat := 0x09

/-- Fan speed reading register (2 registers long). -/
def AYN_SENSOR_PWM_FAN_SPEED_REG : Nat := 0x20

/-- PWM operating mode register. -/
def AYN_SENSOR_PWM_FAN_MODE_REG : Nat := 0x10

/-- PWM duty cycle set-point register. -/
def AYN_SENSOR_PWM_FAN_SET_REG : Nat := 0x11

/-- RGB red channel register. -/
def AYN_LED_MC_R_REG : Nat := 0xB0

/-- RGB green channel register. -/
def AYN_LED_MC_G_REG : Nat := 0xB1

/-- RGB blue channel register. -/
def AYN_LED_MC_B_REG : Nat := 0xB2

/-- RGB mode register. -/
def AYN_LED_MODE_REG : Nat := 0xB3

/-- RGB mode sentinel: default breathing mode. -/
def AYN_LED_MODE_BREATH : Nat := 0x00

/-- RGB mode sentinel: user defined (manual) mode, as requested by a write. -/
def AYN_LED_MODE_WRITE : Nat := 0xAA

/-- RGB mode sentinel: manual mode as reported back by the EC when probed. -/
def AYN_LED_MODE_WRITE_ENABLED : Nat := 0x55

/-- `enum ayn_model` constant `ayn_loki_max` (the C enum starts at 1; the
global `model` variable is an integer and defaults to 0). -/
def ayn_loki_max : Nat := 1

/-- `enum ayn_model` constant `ayn_loki_minipro`. -/
def ayn_loki_minipro : Nat := 2

/-- `enum ayn_model` constant `ayn_loki_zero`. -/
def ayn_loki_zero : Nat := 3

/-- The `switch (model)` guard shared by the PWM scaling branches:
true exactly when `model` matches one of the three case labels. -/
def isKnownModel (model : Nat) : Bool :=
  model = ayn_loki_max || model = ayn_loki_minipro || model = ayn_loki_zero

/-- `read_from_ec(reg, size, &val)` on the success path: the lock is
acquired and released and every `ec_read` succeeds.  The C loop runs
`*val <<= i * 8; *val += buffer;` for `i = 0 .. size-1`, i.e. the
accumulator is shifted left by `i*8` bits before byte `i` is added. -/
def read_from_ec (ec : EC) (reg : Nat) (size : Nat) : Nat :=
  (List.range size).foldl (fun val i => val * 2 ^ (i * 8) + ec (reg + i)) 0

/-- `write_to_ec(reg, val)` on the success path.  The `val` parameter has C
type `u8`, so the argument is truncated modulo 256 at the call boundary. -/
def write_to_ec (ec : EC) (reg : Nat) (val : Int) : EC :=
  fun r => if r = reg then (val % 256).toNat else ec r

theorem write_to_ec_same (ec : EC) (reg : Nat) (val : Int) :
    write_to_ec ec reg val reg = (val % 256).toNat := by
  simp [write_to_ec]

theorem write_to_ec_other (ec : EC) (reg : Nat) (val : Int) (r : Nat)
    (h : r ≠ reg) : write_to_ec ec reg val r = ec r := by
  simp [write_to_ec, h]

/-- A one-byte `read_from_ec` returns the register's byte unchanged. -/
theorem read_from_ec_one (ec : EC) (reg : Nat) :
    read_from_ec ec reg 1 = ec reg := by
  simp [read_from_ec, List.range_succ]

/-- A two-byte `read_from_ec` puts the first byte (lowest address) in the
high-order bits: the result is `256 * b0 + b1`. -/
theorem read_from_ec_two (ec : EC) (reg : Nat) :
    read_from_ec ec reg 2 = 256 * ec reg + ec (reg + 1) := by
  simp [read_from_ec, List.range_succ]
  ring

/-- `ayn_platform_read`, `hwmon_pwm_input` path: read one byte from the PWM
set-point register, and for the three known models expand it by a left
shift into the external range.  Returns `(ret, *val)`. -/
def ayn_pwm_input_read (model : Nat) (ec : EC) : Int × Int :=
  let v : Int := read_from_ec ec AYN_SENSOR_PWM_FAN_SET_REG 1
  if isKnownModel model then (0, v * 2) else (0, v)

/-- `ayn_platform_write`, `hwmon_pwm_input` path, src/ayn-sensors.c revision:
reject values outside [0, 254], for known models compress by a right shift
(C `>> 1` on a non-negative `long`, i.e. division by two), then write the
set-point register.  Returns `(ret, final EC state)`. -/
def ayn_pwm_input_write (model : Nat) (ec : EC) (val : Int) : Int × EC :=
  if val < 0 ∨ val > 254 then (-EINVAL, ec)
  else
    let v := if isKnownModel model then val / 2 else val
    (0, write_to_ec ec AYN_SENSOR_PWM_FAN_SET_REG v)

/-- `ayn_platform_write`, `hwmon_pwm_input` path, src/unnamed/part_003
revision: identical except the accepted upper bound is 255. -/
def ayn_pwm_input_write_p3 (model : Nat) (ec : EC) (val : Int) : Int × EC :=
  if val < 0 ∨ val > 255 then (-EINVAL, ec)
  else
    let v := if isKnownModel model then val / 2 else val
    (0, write_to_ec ec AYN_SENSOR_PWM_FAN_SET_REG v)

/-- C1: PWM duty-cycle round-trip.  For any of the three known models and
any `v` in [0, 254], writing `v` and reading back returns `v` when `v` is
even and `v - 1` when `v` is odd: the low bit is truncated by the right
shift into the EC's [0-128] native range and restored by the left shift on
read. -/
theorem duty_cycle_roundtrip (model : Nat) (ec : EC) (v : Int)
    (hm : isKnownModel model = true) (h0 : 0 ≤ v) (h1 : v ≤ 254) :
    (ayn_pwm_input_read model (ayn_pwm_input_write model ec v).2).2 =
      if v % 2 = 0 then v else v - 1 := by
  have hlt : ¬(v < 0 ∨ v > 254) := by omega
  have hdiv : (0:Int) ≤ v / 2 := by positivity
  have hdiv2 : v / 2 ≤ 127 := by omega
  have hmod : v / 2 % 256 = v / 2 := by omega
  simp only [ayn_pwm_input_write, hlt, if_false, ite_false, hm, if_true,
    ayn_pwm_input_read, read_from_ec_one, write_to_ec_same]
  rw [hmod]
  have htn : ((v / 2).toNat : Int) = v / 2 := Int.toNat_of_nonneg hdiv
  rw [htn]
  omega

theorem duty_cycle_roundtrip_witness :
    isKnownModel 1 = true ∧ (0:Int) ≤ 7 ∧ (7:Int) ≤ 254 ∧
      (ayn_pwm_input_read 1 (ayn_pwm_input_write 1 (fun _ => 0) 7).2).2 = 6 := by
  refine ⟨by decide, by decide, by decide, ?_⟩
  have h := duty_cycle_roundtrip 1 (fun _ => 0) 7 (by decide) (by decide)
    (by decide)
  simpa using h

/-- `ayn_pwm_manual()`: manual mode writes hardware code 0x00. -/
def ayn_pwm_manual (ec : EC) : Int × EC :=
  (0, write_to_ec ec AYN_SENSOR_PWM_FAN_MODE_REG 0x00)

/-- `ayn_pwm_auto()`: automatic mode writes hardware code 0x01. -/
def ayn_pwm_auto (ec : EC) : Int × EC :=
  (0, write_to_ec ec AYN_SENSOR_PWM_FAN_MODE_REG 0x01)

/-- `ayn_pwm_user()`: user fan-curve mode writes hardware code 0x02. -/
def ayn_pwm_user (ec : EC) : Int × EC :=
  (0, write_to_ec ec AYN_SENSOR_PWM_FAN_MODE_REG 0x02)

/-- `ayn_platform_write`, `hwmon_pwm_mode` path: boundary value 1 selects
manual, 2 selects the user curve, 0 selects automatic; anything else is
rejected with -EINVAL. -/
def ayn_pwm_mode_write (ec : EC) (val : Int) : Int × EC :=
  if val = 1 then ayn_pwm_manual ec
  else if val = 2 then ayn_pwm_user ec
  else if val = 0 then ayn_pwm_auto ec
  else (-EINVAL, ec)

/-- `ayn_platform_read`, `hwmon_pwm_mode` path: read the mode register and
swap hardware codes 0 and 1 (EC uses 0 for manual and 1 for automatic;
hwmon uses the opposite); other values pass through.  Returns
`(ret, *val)`. -/
def ayn_pwm_mode_read (ec : EC) : Int × Int :=
  let v : Int := read_from_ec ec AYN_SENSOR_PWM_FAN_MODE_REG 1
  if v = 0 then (0, 1) else if v = 1 then (0, 0) else (0, v)

/-- C2: fan mode round-trip.  For each boundary mode m in
{Auto = 0, Manual = 1, UserCurve = 2}, writing m and reading the mode back
returns m: the translation maps hardware 1 to boundary Auto(0) and
hardware 0 to boundary Manual(1), inverted symmetrically on read and
write, and leaves UserCurve(2) uninverted. -/
theorem mode_roundtrip (ec : EC) (m : Int)
    (hm : m = 0 ∨ m = 1 ∨ m = 2) :
    (ayn_pwm_mode_read (ayn_pwm_mode_write ec m).2).2 = m := by
  rcases hm with h | h | h <;> subst h <;>
    simp [ayn_pwm_mode_write, ayn_pwm_manual, ayn_pwm_auto, ayn_pwm_user,
      ayn_pwm_mode_read, read_from_ec_one, write_to_ec_same]

theorem mode_roundtrip_witness :
    ((2:Int) = 0 ∨ (2:Int) = 1 ∨ (2:Int) = 2) ∧
      (ayn_pwm_mode_read (ayn_pwm_mode_write (fun _ => 0) 2).2).2 = 2 :=
  ⟨by decide, mode_roundtrip (fun _ => 0) 2 (by decide)⟩

/-- A concrete EC register file for the byte-ordering counterexample: the
byte at the fan-speed register is 1 and the byte above it is 0. -/
def ecByteOrder : EC := fun r => if r = AYN_SENSOR_PWM_FAN_SPEED_REG then 1 else 0

/-- C3 counterexample: with byte 1 at address 0x20 and byte 0 at 0x21, the
2-byte fan-speed read returns 256, not `b0 + 256 * b1 = 1`: the first byte
read is NOT least-significant. -/
theorem read_byte_order_counterexample :
    read_from_ec ecByteOrder AYN_SENSOR_PWM_FAN_SPEED_REG 2 = 256 ∧
      ecByteOrder AYN_SENSOR_PWM_FAN_SPEED_REG +
        256 * ecByteOrder (AYN_SENSOR_PWM_FAN_SPEED_REG + 1) = 1 := by
  constructor <;> decide

/-- C3 amended: in a multi-byte read the accumulator is shifted left before
each byte is added, so the first byte read (lowest address) lands in the
HIGH-order bits; the 2-byte fan-speed read of `ayn_platform_read` returns
`256 * byte_at(addr) + byte_at(addr + 1)`. -/
theorem fan_speed_read_byte_order (ec : EC) :
    read_from_ec ec AYN_SENSOR_PWM_FAN_SPEED_REG 2 =
      256 * ec AYN_SENSOR_PWM_FAN_SPEED_REG +
        ec (AYN_SENSOR_PWM_FAN_SPEED_REG + 1) :=
  read_from_ec_two ec AYN_SENSOR_PWM_FAN_SPEED_REG

/-- C5 counterexample: in the src/ayn-sensors.c revision, writing duty
cycle 255 (inside the claim's accepted range [0, 255]) is rejected with
-EINVAL rather than succeeding. -/
theorem duty_cycle_255_rejected :
    (ayn_pwm_input_write ayn_loki_max (fun _ => 0) 255).1 = -EINVAL := by
  decide

/-- C5 amended: duty-cycle range validation differs between revisions.
The src/ayn-sensors.c revision accepts exactly [0, 254] and the
src/unnamed/part_003 revision accepts exactly [0, 255]; in both, an
out-of-range value returns -EINVAL and leaves the EC state untouched,
and an in-range value succeeds and writes the value right-shifted by one
to the PWM set-point register (for the known models). -/
theorem duty_cycle_write_validation (model : Nat) (ec : EC) (v : Int)
    (hm : isKnownModel model = true) :
    (0 ≤ v ∧ v ≤ 254 →
      ayn_pwm_input_write model ec v =
        (0, write_to_ec ec AYN_SENSOR_PWM_FAN_SET_REG (v / 2))) ∧
    (v < 0 ∨ v > 254 →
      ayn_pwm_input_write model ec v = (-EINVAL, ec)) ∧
    (0 ≤ v ∧ v ≤ 255 →
      ayn_pwm_input_write_p3 model ec v =
        (0, write_to_ec ec AYN_SENSOR_PWM_FAN_SET_REG (v / 2))) ∧
    (v < 0 ∨ v > 255 →
      ayn_pwm_input_write_p3 model ec v = (-EINVAL, ec)) := by
  refine ⟨fun h => ?_, fun h => ?_, fun h => ?_, fun h => ?_⟩
  · have : ¬(v < 0 ∨ v > 254) := by omega
    simp [ayn_pwm_input_write, this, hm]
  · simp [ayn_pwm_input_write, h]
  · have : ¬(v < 0 ∨ v > 255) := by omega
    simp [ayn_pwm_input_write_p3, this, hm]
  · simp [ayn_pwm_input_write_p3, h]

theorem duty_cycle_write_validation_witness :
    isKnownModel 1 = true ∧
      ((0:Int) ≤ 255 ∧ (255:Int) ≤ 255 →
        ayn_pwm_input_write_p3 1 (fun _ => 0) 255 =
          (0, write_to_ec (fun _ => 0) AYN_SENSOR_PWM_FAN_SET_REG 127)) := by
  refine ⟨by decide, fun h => ?_⟩
  have := (duty_cycle_write_validation 1 (fun _ => 0) 255 (by decide)).2.2.1 h
  simpa using this

/-- Environment for the fallible transaction-layer model: the outcome of
each `ec_read` (a byte, or a nonzero error return), and whether the global
ACPI lock acquire/release calls succeed. -/
structure ECEnv where
  read : Nat → Except Int Nat
  lockOk : Bool
  unlockOk : Bool

/-- Result of `read_from_ec` in the fallible model: the C return value,
whether the global lock is left held on exit, the registers passed to
`ec_read` in order, and the accumulator value (meaningful when `ret = 0`;
the C code leaves `*val` unassigned on the pre-lock failure path, modelled
as 0). -/
structure ECReadResult where
  ret : Int
  lockHeld : Bool
  reads : List Nat
  val : Nat

/-- The `for (i = 0; i < size; i++)` loop body of `read_from_ec`, recursing
on the number of remaining iterations: read the byte at `reg + i`; on a
nonzero `ec_read` return, return it immediately (the C `return ret` inside
the loop); otherwise shift the accumulator left by `i * 8` bits and add the
byte.  Also returns the registers read, in order. -/
def rfeLoop (io : ECEnv) (reg : Nat) :
    Nat → Nat → Nat → Except Int Nat × List Nat
  | 0, _, val => (Except.ok val, [])
  | rem + 1, i, val =>
    match io.read (reg + i) with
    | Except.error e => (Except.error e, [reg + i])
    | Except.ok b =>
      let r := rfeLoop io reg rem (i + 1) (val * 2 ^ (i * 8) + b)
      (r.1, (reg + i) :: r.2)

/-- `read_from_ec(reg, size, &val)` in the fallible model.  If the lock
cannot be acquired, return -EBUSY with no reads.  If a byte read fails
inside the loop, the early `return ret` skips the unlock call, so the lock
stays held.  On loop success, a failing unlock returns -EBUSY (lock still
held); otherwise return 0. -/
def read_from_ec_fallible (io : ECEnv) (reg size : Nat) : ECReadResult :=
  if io.lockOk then
    match rfeLoop io reg size 0 0 with
    | (Except.error e, reads) => ⟨e, true, reads, 0⟩
    | (Except.ok v, reads) =>
      if io.unlockOk then ⟨0, false, reads, v⟩ else ⟨-EBUSY, true, reads, v⟩
  else ⟨-EBUSY, false, [], 0⟩

/-- If the first failing `ec_read` is at offset `i + d` (every offset from
`i` up to it succeeds), the loop starting at index `i` returns that error
and reads exactly the registers `reg + i, …, reg + (i + d)`, each once. -/
theorem rfeLoop_first_error (io : ECEnv) (reg : Nat) (e : Int) :
    ∀ (d i val rem : Nat),
      io.read (reg + (i + d)) = Except.error e →
      (∀ k, i ≤ k → k < i + d → ∃ b, io.read (reg + k) = Except.ok b) →
      i + d < i + rem →
      rfeLoop io reg rem i val =
        (Except.error e, List.range' (reg + i) (d + 1)) := by
  intro d
  induction d with
  | zero =>
    intro i val rem herr _ hlt
    obtain ⟨rem', rfl⟩ : ∃ r, rem = r + 1 := ⟨rem - 1, by omega⟩
    simp only [Nat.add_zero] at herr
    simp [rfeLoop, herr, List.range'_succ, List.range']
  | succ d ih =>
    intro i val rem herr hok hlt
    obtain ⟨rem', rfl⟩ : ∃ r, rem = r + 1 := ⟨rem - 1, by omega⟩
    obtain ⟨b, hb⟩ := hok i (le_refl i) (by omega)
    have htail : rfeLoop io reg rem' (i + 1) (val * 2 ^ (i * 8) + b) =
        (Except.error e, List.range' (reg + (i + 1)) (d + 1)) := by
      apply ih (i + 1) _ rem'
      · have h1 : i + 1 + d = i + (d + 1) := by omega
        rw [h1]; exact herr
      · intro k hk1 hk2
        exact hok k (by omega) (by omega)
      · omega
    simp only [rfeLoop, hb]
    rw [htail]
    have h2 : reg + (i + 1) = reg + i + 1 := by omega
    rw [List.range'_succ (reg + i) (d + 1) 1, h2]

/-- C4: mid-transaction I/O failure.  If the lock is acquired and the
byte read at offset `j` is the first to fail (with nonzero return `e`),
`read_from_ec` returns `e`, the global lock is left held (the early return
skips the unlock), and the registers read are exactly
`reg, reg + 1, …, reg + j`, each once: the remaining `size - j - 1` byte
reads are aborted and the failing read is not retried. -/
theorem read_from_ec_midfail (io : ECEnv) (reg size j : Nat) (e : Int)
    (hlock : io.lockOk = true)
    (hj : j < size)
    (hok : ∀ k, k < j → ∃ b, io.read (reg + k) = Except.ok b)
    (herr : io.read (reg + j) = Except.error e) :
    read_from_ec_fallible io reg size = ⟨e, true, List.range' reg (j + 1), 0⟩ := by
  have hloop : rfeLoop io reg size 0 0 =
      (Except.error e, List.range' (reg + 0) (j + 1)) := by
    apply rfeLoop_first_error io reg e j 0 0 size
    · simpa using herr
    · intro k hk1 hk2
      exact hok k (by omega)
    · omega
  simp only [read_from_ec_fallible, hlock, if_true]
  rw [hloop]
  rfl

theorem read_from_ec_midfail_witness :
    read_from_ec_fallible
        ⟨fun r => if r = 0x21 then Except.error (-5) else Except.ok 3,
         true, true⟩ 0x20 2 =
      ⟨-5, true, [0x20, 0x21], 0⟩ := by
  have h := read_from_ec_midfail
    ⟨fun r => if r = 0x21 then Except.error (-5) else Except.ok 3,
     true, true⟩ 0x20 2 1 (-5) rfl (by omega)
    (fun k hk => by
      have hk0 : k = 0 := by omega
      subst hk0
      exact ⟨3, rfl⟩)
    rfl
  rw [h]
  simp [List.range'_succ, List.range']

/-- One entry of `struct mc_subled` as used by the driver: the channel
intensity and the EC register address the channel is wired to.  The other
fields of the C struct are not read by `ayn_led_mc_brightness_set`. -/
structure McSubled where
  intensity : Nat
  channel : Nat

/-- The driver's `ayn_led_mc_subled_info` table with the intensities as
parameters (they are runtime-settable metadata): Red on 0xB0, Green on
0xB1, Blue on 0xB2, in that order. -/
def ayn_led_mc_subled_info (iR iG iB : Nat) : List McSubled :=
  [⟨iR, AYN_LED_MC_R_REG⟩, ⟨iG, AYN_LED_MC_G_REG⟩, ⟨iB, AYN_LED_MC_B_REG⟩]

/-- `ayn_led_mc_brightness_set` on the success path of the mode read.
Reads the RGB mode register; unless it holds `AYN_LED_MODE_WRITE` (0xAA)
or `AYN_LED_MODE_WRITE_ENABLED` (0x55), returns with no EC write.
Otherwise, for each subled in order, writes
`brightness * intensity / max_brightness` (C integer division) to the
subled's channel register, then writes `AYN_LED_MODE_WRITE` to the mode
register.  Returns the final EC state and the trace of `(register, byte)`
pairs actually written (the bytes stored after `u8` truncation). -/
def ayn_led_mc_brightness_set (subleds : List McSubled) (max_brightness : Nat)
    (brightness : Nat) (ec : EC) : EC × List (Nat × Nat) :=
  let mode := read_from_ec ec AYN_LED_MODE_REG 1
  if mode = AYN_LED_MODE_WRITE ∨ mode = AYN_LED_MODE_WRITE_ENABLED then
    let p := subleds.foldl
      (fun (acc : EC × List (Nat × Nat)) s =>
        let val := brightness * s.intensity / max_brightness
        (write_to_ec acc.1 s.channel (val : Int),
         acc.2 ++ [(s.channel, val % 256)]))
      (ec, [])
    (write_to_ec p.1 AYN_LED_MODE_REG (AYN_LED_MODE_WRITE : Nat),
     p.2 ++ [(AYN_LED_MODE_REG, AYN_LED_MODE_WRITE)])
  else (ec, [])

/-- C6: `set_brightness` in Manual mode.  When the RGB mode register holds
either Manual sentinel (0xAA requested or 0x55 enabled), the EC writes
performed are exactly `level * intensity / 255` to the Red, Green and Blue
channel registers in that order, followed by re-asserting the Manual
requested sentinel 0xAA on the mode register. -/
theorem brightness_set_manual (iR iG iB level : Nat) (ec : EC)
    (hmode : ec AYN_LED_MODE_REG = AYN_LED_MODE_WRITE ∨
      ec AYN_LED_MODE_REG = AYN_LED_MODE_WRITE_ENABLED)
    (hR : iR ≤ 255) (hG : iG ≤ 255) (hB : iB ≤ 255) (hl : level ≤ 255) :
    (ayn_led_mc_brightness_set (ayn_led_mc_subled_info iR iG iB)
        255 level ec).2 =
      [(AYN_LED_MC_R_REG, level * iR / 255),
       (AYN_LED_MC_G_REG, level * iG / 255),
       (AYN_LED_MC_B_REG, level * iB / 255),
       (AYN_LED_MODE_REG, AYN_LED_MODE_WRITE)] := by
  have hle : ∀ x : Nat, x ≤ 255 → level * x / 255 % 256 = level * x / 255 := by
    intro x hx
    have h1 : level * x ≤ 255 * 255 := Nat.mul_le_mul hl hx
    have h2 : level * x / 255 ≤ 255 * 255 / 255 := Nat.div_le_div_right h1
    exact Nat.mod_eq_of_lt (by omega)
  simp only [ayn_led_mc_brightness_set, ayn_led_mc_subled_info,
    read_from_ec_one, hmode, if_true, List.foldl_cons, List.foldl_nil]
  simp [hle iR hR, hle iG hG, hle iB hB]

theorem brightness_set_manual_witness :
    ((fun r => if r = AYN_LED_MODE_REG then AYN_LED_MODE_WRITE else 0 : EC)
        AYN_LED_MODE_REG = AYN_LED_MODE_WRITE ∨
      (fun r => if r = AYN_LED_MODE_REG then AYN_LED_MODE_WRITE else 0 : EC)
        AYN_LED_MODE_REG = AYN_LED_MODE_WRITE_ENABLED) ∧
    (ayn_led_mc_brightness_set (ayn_led_mc_subled_info 255 128 0) 255 255
        (fun r => if r = AYN_LED_MODE_REG then AYN_LED_MODE_WRITE else 0)).2 =
      [(AYN_LED_MC_R_REG, 255), (AYN_LED_MC_G_REG, 128),
       (AYN_LED_MC_B_REG, 0), (AYN_LED_MODE_REG, AYN_LED_MODE_WRITE)] := by
  refine ⟨Or.inl rfl, ?_⟩
  have h := brightness_set_manual 255 128 0 255
    (fun r => if r = AYN_LED_MODE_REG then AYN_LED_MODE_WRITE else 0)
    (Or.inl rfl) (by omega) (by omega) (by omega) (by omega)
  rw [h]

/-- C7: `set_brightness` while not in Manual mode.  When the RGB mode
register holds any byte other than the two Manual sentinels, the call
performs zero EC register writes and returns normally: the EC state is
unchanged and the write trace is empty, for every subled table, maximum
brightness and level. -/
theorem brightness_set_not_manual (subleds : List McSubled)
    (max_brightness level : Nat) (ec : EC)
    (h1 : ec AYN_LED_MODE_REG ≠ AYN_LED_MODE_WRITE)
    (h2 : ec AYN_LED_MODE_REG ≠ AYN_LED_MODE_WRITE_ENABLED) :
    ayn_led_mc_brightness_set subleds max_brightness level ec = (ec, []) := by
  simp [ayn_led_mc_brightness_set, read_from_ec_one, h1, h2]

theorem brightness_set_not_manual_witness :
    ((fun _ => 0 : EC) AYN_LED_MODE_REG ≠ AYN_LED_MODE_WRITE) ∧
    ((fun _ => 0 : EC) AYN_LED_MODE_REG ≠ AYN_LED_MODE_WRITE_ENABLED) ∧
    ayn_led_mc_brightness_set (ayn_led_mc_subled_info 255 128 0) 255 200
        (fun _ => 0) = ((fun _ => 0 : EC), []) := by
  refine ⟨by decide, by decide, ?_⟩
  exact brightness_set_not_manual (ayn_led_mc_subled_info 255 128 0) 255 200
    (fun _ => 0) (by decide) (by decide)

/-- One entry of the driver's static `thermal_sensors` table. -/
structure ThermalSensor where
  name : Option String
  reg : Nat

/-- The static `thermal_sensors` table: five named sensors followed by the
zero terminator `{0,}` (null name, register 0). -/
def thermal_sensors : List ThermalSensor :=
  [⟨some "Battery", AYN_SENSOR_BAT_TEMP_REG⟩,
   ⟨some "Motherboard", AYN_SENSOR_MB_TEMP_REG⟩,
   ⟨some "Charger IC", AYN_SENSOR_CHARGE_TEMP_REG⟩,
   ⟨some "vCore", AYN_SENSOR_VCORE_TEMP_REG⟩,
   ⟨some "CPU Core", AYN_SENSOR_PROC_TEMP_REG⟩,
   ⟨none, 0⟩]

/-- `thermal_sensor_temp(reg, &val)` on the success path: one-byte read,
multiplied by 1000 (degrees Celsius to millidegrees). -/
def thermal_sensor_temp (reg : Nat) (ec : EC) : Int :=
  (read_from_ec ec reg 1 : Int) * 1000

/-- `thermal_sensor_show` on the success path.  The C code indexes the
static `thermal_sensors` array with the attribute index and performs no
bounds check of its own; indices 0-5 stay inside the array (index 5 being
the zero terminator, whose register field is 0), while larger indices
access memory past the array — modelled here as `none`. -/
def thermal_sensor_show (index : Nat) (ec : EC) : Option Int :=
  (thermal_sensors.get? index).map (fun s => thermal_sensor_temp s.reg ec)

/-- C8: temperature scaling.  For every sensor id 0-4 and every EC state,
the exposed temperature is exactly the raw byte of that sensor's register
multiplied by 1000, with no other transformation. -/
theorem thermal_scaling (i : Nat) (h : i < 5) (ec : EC) :
    ∃ s, thermal_sensors.get? i = some s ∧
      thermal_sensor_show i ec = some ((ec s.reg : Int) * 1000) := by
  interval_cases i <;>
    exact ⟨_, rfl, by
      simp [thermal_sensor_show, thermal_sensors, thermal_sensor_temp,
        read_from_ec_one]⟩

theorem thermal_scaling_witness :
    (3 < 5) ∧ ∃ s, thermal_sensors.get? 3 = some s ∧
      thermal_sensor_show 3 (fun r => if r = 0x08 then 40 else 0) =
        some (((fun r => if r = 0x08 then 40 else 0 : EC) s.reg : Int) * 1000) :=
  ⟨by omega, thermal_scaling 3 (by omega) (fun r => if r = 0x08 then 40 else 0)⟩

/-- A concrete EC register file for the thermal bounds-check
counterexample: register 0x00 holds 42. -/
def ecReg0 : EC := fun r => if r = 0 then 42 else 0

/-- C9 counterexample: the out-of-range sensor id 5 does not signal an
invalid-argument condition — `thermal_sensor_show` performs the table
lookup anyway, reaches the terminator entry (register 0) and returns a
successful EC read of register 0x00 scaled by 1000. -/
theorem thermal_oob_counterexample :
    thermal_sensor_show 5 ecReg0 = some 42000 := by
  simp [thermal_sensor_show, thermal_sensors, thermal_sensor_temp,
    read_from_ec_one, ecReg0]

/-- C9 amended: `thermal_sensor_show` performs no bounds check on the
sensor index.  The out-of-range index 5 still performs the lookup and an
EC read: it reads the terminator entry's register 0x00 and returns that
byte times 1000, for every EC state. -/
theorem thermal_show_no_bounds_check (ec : EC) :
    thermal_sensor_show 5 ec = some ((ec 0 : Int) * 1000) := by
  simp [thermal_sensor_show, thermal_sensors, thermal_sensor_temp,
    read_from_ec_one]

/-- `led_mode_show` on the success path.  The switch over the mode byte
assigns `val = breath` (0) for `AYN_LED_MODE_BREATH`, `val = write` (1)
for either Manual sentinel, and has no default assignment: for any other
byte the local `val` is used uninitialized, modelled as `none` (no defined
boundary value). -/
def led_mode_show (ec : EC) : Option Int :=
  let mode := read_from_ec ec AYN_LED_MODE_REG 1
  if mode = AYN_LED_MODE_BREATH then some 0
  else if mode = AYN_LED_MODE_WRITE ∨ mode = AYN_LED_MODE_WRITE_ENABLED then
    some 1
  else none

/-- C10: when the RGB mode register holds any byte other than the three
known sentinels (0x00 Breathing, 0xAA Manual-requested, 0x55
Manual-enabled), `led_mode_show` assigns no value to its output variable:
no defined boundary value in {0, 1} is produced. -/
theorem led_mode_show_uninitialized (ec : EC)
    (h0 : ec AYN_LED_MODE_REG ≠ AYN_LED_MODE_BREATH)
    (h1 : ec AYN_LED_MODE_REG ≠ AYN_LED_MODE_WRITE)
    (h2 : ec AYN_LED_MODE_REG ≠ AYN_LED_MODE_WRITE_ENABLED) :
    led_mode_show ec = none := by
  simp [led_mode_show, read_from_ec_one, h0, h1, h2]

theorem led_mode_show_uninitialized_witness :
    ((fun _ => 7 : EC) AYN_LED_MODE_REG ≠ AYN_LED_MODE_BREATH) ∧
    ((fun _ => 7 : EC) AYN_LED_MODE_REG ≠ AYN_LED_MODE_WRITE) ∧
    ((fun _ => 7 : EC) AYN_LED_MODE_REG ≠ AYN_LED_MODE_WRITE_ENABLED) ∧
    led_mode_show (fun _ => 7) = none := by
  refine ⟨by decide, by decide, by decide, ?_⟩
  exact led_mode_show_uninitialized (fun _ => 7) (by decide) (by decide)
    (by decide)

end Ayn
